/-
Verification of the monolit-parser capture tool (Playwright-driven asset /
traffic / DOM-snapshot recorder).

Shallow embedding of the two source variants (the full variant with DOM
snapshots, and the reduced `parser.js` variant; the relevant functions
`getExtension`, `saveFile` and the `page.on` handlers are textually identical
in both).  External libraries are modeled as follows:

* node `crypto` md5: an explicit function parameter (`md5hex` over byte
  lists for bodies, `md5shex` over strings for snapshots).  The code relies
  only on the digest being a deterministic function of the input.
* node `fs`: an explicit state component; `writeFileSync` prepends a
  `(path, contents)` pair, `existsSync` searches the list, write streams are
  lists of records in emission order.
* Playwright response/request objects: structures carrying the results of
  the accessors the code calls (`url()`, `headers()`, `ok()`, `status()`,
  `resourceType()`, `body()`); a failed `body()` read (rejected promise,
  caught by the code's try/catch) is `none`.
* `new URL(u).pathname`: carried as a field of the response structure
  (URL parsing happens in the URL library, outside the repository).
* `Date.now()` / `new Date().toISOString()`: timestamps are modeled as
  natural numbers (epoch milliseconds); ISO-8601 strings of increasing
  instants compare in the same order, so ordering statements transfer.
* the browser event loop: handlers run sequentially, one event at a time,
  as a fold over the event list, matching the single-threaded delivery of
  Playwright callbacks.
-/
import Mathlib

namespace Monolit

/-! ### Configuration constants (path.join with the posix separator) -/

def OUTPUT_DIR : String := "captured_data"

def TEXTURES_DIR : String := OUTPUT_DIR ++ "/textures"

def SCRIPTS_DIR : String := OUTPUT_DIR ++ "/scripts"

def SNAPSHOTS_DIR : String := OUTPUT_DIR ++ "/snapshots"

def ASSETS_MAP_FILE : String := OUTPUT_DIR ++ "/assets_map.json"

/-! ### JS string primitives used by the code -/

/-- Does `pat` match a leading segment of `l`? -/
def leadingMatch : List Char → List Char → Bool
  | [], _ => true
  | _ :: _, [] => false
  | p :: ps, c :: cs => decide (p = c) && leadingMatch ps cs

/-- Does `pat` occur as a contiguous segment of `l`? -/
def hasSubList : List Char → List Char → Bool
  | [], pat => leadingMatch pat []
  | c :: cs, pat => leadingMatch pat (c :: cs) || hasSubList cs pat

/-- JS `String.prototype.includes`. -/
def jsIncludes (s pat : String) : Bool :=
  hasSubList s.data pat.data

/-- Node `path.extname` on a posix path: the suffix of the last path segment
from its last dot, empty when there is no dot, when the only dot leads the
segment (dotfiles), or for the `..` segment. -/
def extnameOf (p : String) : String :=
  let bn := (p.data.reverse.takeWhile (fun c => decide (c ≠ '/'))).reverse
  if bn = ['.', '.'] then ""
  else
    let afterRev := bn.reverse.takeWhile (fun c => decide (c ≠ '.'))
    if afterRev.length = bn.length then ""
    else
      let dotIdx := bn.length - afterRev.length - 1
      if dotIdx = 0 then "" else String.mk (bn.drop dotIdx)

/-- Whitespace as JS `String.prototype.trim` strips it: ASCII blanks, the
line terminators, NBSP and the BOM (the Unicode space separators beyond
NBSP do not occur in the trees considered here). -/
def isJsWhitespaceChar (c : Char) : Bool :=
  decide (c = ' ') || decide (c = '\t') || decide (c = '\n') || decide (c = '\r')
    || decide (c.toNat = 11) || decide (c.toNat = 12) || decide (c.toNat = 160)
    || decide (c.toNat = 65279)

/-- JS `String.prototype.trim`. -/
def jsTrim (s : String) : String :=
  String.mk
    (((s.data.dropWhile isJsWhitespaceChar).reverse.dropWhile
        isJsWhitespaceChar).reverse)

/-- JS object lookup `headers()['content-type']`-style over an association
list in insertion order. -/
def headerLookup (hs : List (String × String)) (k : String) : Option String :=
  (hs.find? (fun p => decide (p.1 = k))).map Prod.snd

/-! ### Playwright request/response surface -/

/-- The accessors of a Playwright `Request` the code calls. -/
structure JsRequest where
  url : String
  method : String
  headers : List (String × String)
  postData : Option String
deriving DecidableEq

/-- The accessors of a Playwright `Response` (and its request) the code
calls.  `pathname` is `new URL(url()).pathname`; `body?` is `none` when the
`body()` promise rejects. -/
structure JsResponse where
  url : String
  pathname : String
  headers : List (String × String)
  ok : Bool
  status : Nat
  method : String
  resourceType : String
  body? : Option (List Nat)
deriving DecidableEq

/-- Source `getExtension(response, type)`: content-type table first
(substring tests, in source order), then the URL path extension, then the
per-category default. -/
def getExtension (response : JsResponse) (type : String) : String :=
  let contentType := (headerLookup response.headers "content-type").getD ""
  if jsIncludes contentType "image/png" then ".png"
  else if jsIncludes contentType "image/jpeg" then ".jpg"
  else if jsIncludes contentType "image/webp" then ".webp"
  else if jsIncludes contentType "image/gif" then ".gif"
  else if jsIncludes contentType "javascript" || jsIncludes contentType "application/x-javascript" then ".js"
  else
    let urlExt := extnameOf response.pathname
    if urlExt ≠ "" then urlExt
    else if type = "image" then ".png" else ".js"

/-! ### Log records and capture state -/

/-- One JSON record of `http_log.jsonl` / `websocket_log.jsonl`.  The JS
object variants are modeled as one structure with optional fields. -/
structure LogRecord where
  timestamp : Nat
  tag : String
  method : Option String
  url : String
  headers : Option (List (String × String))
  status : Option Nat
  contentTypeHeader : Option String
  postData : Option String
  payload : Option String
deriving DecidableEq

/-- Host-process state: filesystem under `captured_data` (newest write
first), the in-memory asset map (newest entry first), the two log streams
(emission order) and console output (newest first). -/
structure CaptureState where
  files : List (String × List Nat)
  assetMap : List (String × String)
  httpLog : List LogRecord
  wsLog : List LogRecord
  consoleLines : List String
deriving DecidableEq

def initialCaptureState : CaptureState :=
  { files := [], assetMap := [], httpLog := [], wsLog := [], consoleLines := [] }

/-- Model of `fs.existsSync` against the tracked filesystem. -/
def fsExistsSync (files : List (String × List Nat)) (p : String) : Bool :=
  files.any (fun f => decide (f.1 = p))

/-- Source `saveFile(response, type, dir)` with its try/catch; a `none` body
models the `response.body()` promise rejecting, which skips the write and
the asset-map update and only logs the failure. -/
def saveFile (md5hex : List Nat → String) (response : JsResponse)
    (type dir : String) (s : CaptureState) : CaptureState :=
  match response.body? with
  | none =>
      { s with consoleLines :=
          ("Failed to save " ++ type ++ " from " ++ response.url) :: s.consoleLines }
  | some buffer =>
      let hash := md5hex buffer
      let ext := getExtension response type
      let filename := hash ++ ext
      let filepath := dir ++ "/" ++ filename
      let s1 :=
        if fsExistsSync s.files filepath then s
        else { s with
                files := (filepath, buffer) :: s.files,
                consoleLines :=
                  ("Saved " ++ type ++ ": " ++ response.url ++ " -> " ++ filename)
                    :: s.consoleLines }
      { s1 with assetMap := (response.url, filename) :: s1.assetMap }

/-- The record built by the `page.on` request handler. -/
def requestLogEntry (now : Nat) (request : JsRequest) : LogRecord :=
  { timestamp := now, tag := "HTTP_REQUEST", method := some request.method,
    url := request.url, headers := some request.headers, status := none,
    contentTypeHeader := none, postData := request.postData, payload := none }

/-- The record built by the `page.on` response handler. -/
def responseLogEntry (now : Nat) (response : JsResponse) : LogRecord :=
  { timestamp := now, tag := "HTTP_RESPONSE", method := some response.method,
    url := response.url, headers := some response.headers,
    status := some response.status,
    contentTypeHeader := headerLookup response.headers "content-type",
    postData := none, payload := none }

/-- The record built by the WebSocket frame handlers. -/
def wsFrameEntry (now : Nat) (tagv url payload : String) : LogRecord :=
  { timestamp := now, tag := tagv, method := none, url := url,
    headers := none, status := none, contentTypeHeader := none,
    postData := none, payload := some payload }

/-- Source `page.on('response')` handler: always log, then save the body
when the status is ok and the resource type is tracked. -/
def onResponse (md5hex : List Nat → String) (now : Nat) (response : JsResponse)
    (s : CaptureState) : CaptureState :=
  let s1 := { s with httpLog := s.httpLog ++ [responseLogEntry now response] }
  if response.ok then
    if response.resourceType = "image" then saveFile md5hex response "image" TEXTURES_DIR s1
    else if response.resourceType = "script" then saveFile md5hex response "script" SCRIPTS_DIR s1
    else s1
  else s1

/-! ### Browser events and the session fold -/

/-- One event delivered by the Playwright page, with the wall-clock instant
at which its handler runs. -/
inductive BrowserEvent where
  | httpRequest (now : Nat) (request : JsRequest)
  | httpResponse (now : Nat) (response : JsResponse)
  | wsFrameSent (now : Nat) (url payload : String)
  | wsFrameReceived (now : Nat) (url payload : String)
deriving DecidableEq

/-- Handler dispatch: each event runs exactly one handler, which appends
exactly one record to its stream. -/
def onEvent (md5hex : List Nat → String) (s : CaptureState) :
    BrowserEvent → CaptureState
  | .httpRequest now request =>
      { s with httpLog := s.httpLog ++ [requestLogEntry now request] }
  | .httpResponse now response => onResponse md5hex now response s
  | .wsFrameSent now url payload =>
      { s with wsLog := s.wsLog ++ [wsFrameEntry now "WS_SENT" url payload] }
  | .wsFrameReceived now url payload =>
      { s with wsLog := s.wsLog ++ [wsFrameEntry now "WS_RECEIVED" url payload] }

/-- A session processes its events in delivery order, each exactly once. -/
def processEvents (md5hex : List Nat → String) (evs : List BrowserEvent)
    (s : CaptureState) : CaptureState :=
  evs.foldl (onEvent md5hex) s

/-- Time at which an event's handler runs. -/
def eventTime : BrowserEvent → Nat
  | .httpRequest now _ => now
  | .httpResponse now _ => now
  | .wsFrameSent now _ _ => now
  | .wsFrameReceived now _ _ => now

/-- The record an event contributes to `http_log.jsonl`, if any. -/
def httpRecordOf : BrowserEvent → Option LogRecord
  | .httpRequest now request => some (requestLogEntry now request)
  | .httpResponse now response => some (responseLogEntry now response)
  | _ => none

/-- The record an event contributes to `websocket_log.jsonl`, if any. -/
def wsRecordOf : BrowserEvent → Option LogRecord
  | .wsFrameSent now url payload => some (wsFrameEntry now "WS_SENT" url payload)
  | .wsFrameReceived now url payload => some (wsFrameEntry now "WS_RECEIVED" url payload)
  | _ => none

/-! ### DOM model for the injected snapshot sampler

The page's live tree is modeled by `DomNode`.  `ComputedStyle` carries
exactly the computed-style properties the injected script reads, as strings
(`window.getComputedStyle` serializes every property to a string), so the
`getComputedStyles(el)` projection of the source is the `style` field
itself. -/

structure ComputedStyle where
  display : String
  position : String
  top : String
  left : String
  right : String
  bottom : String
  width : String
  height : String
  marginTop : String
  marginRight : String
  marginBottom : String
  marginLeft : String
  paddingTop : String
  paddingRight : String
  paddingBottom : String
  paddingLeft : String
  flexDirection : String
  flexWrap : String
  justifyContent : String
  alignItems : String
  alignContent : String
  flexGrow : String
  flexShrink : String
  backgroundColor : String
  backgroundImage : String
  opacity : String
  visibility : String
  zIndex : String
  borderWidth : String
  borderColor : String
  borderStyle : String
  borderRadius : String
  color : String
  fontSize : String
  fontFamily : String
  fontWeight : String
  textAlign : String
  whiteSpace : String
deriving DecidableEq

/-- A live DOM node: an element (with its `childNodes`, which mix element
and text children) or a text node.  `el.children` is the element sublist of
`childNodes`. -/
inductive DomNode where
  | element (tagName elemId className : String)
      (attributes : List (String × String)) (style : ComputedStyle)
      (childNodes : List DomNode)
  | textNode (content : String)

/-- The node shape the injected `traverse` builds before `JSON.stringify`:
`\x7b tagName, id, className, textContent, attributes, styles, children \x7d`. -/
inductive SnapNode where
  | mk (tagName elemId className : String) (textContent : Option String)
      (attributes : List (String × String)) (styles : ComputedStyle)
      (children : List SnapNode)

def SnapNode.tagName : SnapNode → String
  | .mk t _ _ _ _ _ _ => t

def SnapNode.styles : SnapNode → ComputedStyle
  | .mk _ _ _ _ _ st _ => st

def SnapNode.children : SnapNode → List SnapNode
  | .mk _ _ _ _ _ _ cs => cs

/-- The tag exclusion list of the source `traverse`. -/
def excludedTags : List String :=
  ["SCRIPT", "STYLE", "NOSCRIPT", "IFRAME", "LINK", "META", "HEAD", "TITLE"]

/-- The `textContent` field of a snapshot node:
`el.childNodes.length === 1 && el.childNodes[0].nodeType === 3` means the
sole child node is a text node, in which case `el.textContent` is that
text, trimmed; otherwise the field is null. -/
def snapTextContent : List DomNode → Option String
  | [DomNode.textNode s] => some (jsTrim s)
  | _ => none

mutual

/-- Source `traverse(el)`: prune excluded tags and `display: none` elements
(returning null without descending), otherwise build a snapshot node.  The
`textContent` field is set only when the element's sole child node is a text
node, in which case `el.textContent` is that text, trimmed.  The source
iterates `el.children` (elements only); here the recursion runs over
`childNodes` and text children contribute nothing, which yields the same
child list. -/
def traverse : DomNode → Option SnapNode
  | .textNode _ => none
  | .element tagName elemId className attributes style childNodes =>
      if tagName ∈ excludedTags then none
      else if style.display = "none" then none
      else
        some (SnapNode.mk tagName elemId className
          (snapTextContent childNodes) attributes style
          (traverseChildren childNodes))

/-- The `for (const child of el.children) ... push` loop of the source. -/
def traverseChildren : List DomNode → List SnapNode
  | [] => []
  | c :: cs =>
      match traverse c with
      | some n => n :: traverseChildren cs
      | none => traverseChildren cs

end

/-! ### JSON.stringify for snapshot nodes -/

/-- Escape one character the way `JSON.stringify` quotes strings. -/
def jsonEscChar (c : Char) : List Char :=
  if c = '"' then ['\\', '"']
  else if c = '\\' then ['\\', '\\']
  else if c = Char.ofNat 8 then ['\\', 'b']
  else if c = Char.ofNat 9 then ['\\', 't']
  else if c = Char.ofNat 10 then ['\\', 'n']
  else if c = Char.ofNat 12 then ['\\', 'f']
  else if c = Char.ofNat 13 then ['\\', 'r']
  else if c.toNat < 32 then
    ['\\', 'u', '0', '0', Nat.digitChar (c.toNat / 16), Nat.digitChar (c.toNat % 16)]
  else [c]

/-- A JSON string literal for `s`. -/
def jsonStr (s : String) : String :=
  "\"" ++ String.mk (s.data.foldr (fun c acc => jsonEscChar c ++ acc) []) ++ "\""

/-- JSON for a nullable string. -/
def jsonStrOrNull : Option String → String
  | none => "null"
  | some s => jsonStr s

/-- Comma-join a list of already serialized JSON fragments. -/
def jsonJoin : List String → String
  | [] => ""
  | [x] => x
  | x :: xs => x ++ "," ++ jsonJoin xs

/-- A JSON object of string fields, keys in insertion order. -/
def jsonObjOfPairs (ps : List (String × String)) : String :=
  "\x7b" ++ jsonJoin (ps.map (fun p => jsonStr p.1 ++ ":" ++ jsonStr p.2)) ++ "\x7d"

/-- The `styles` object, keys in the order `getComputedStyles` builds them. -/
def stylesJson (st : ComputedStyle) : String :=
  jsonObjOfPairs
    [("display", st.display), ("position", st.position), ("top", st.top),
     ("left", st.left), ("right", st.right), ("bottom", st.bottom),
     ("width", st.width), ("height", st.height),
     ("marginTop", st.marginTop), ("marginRight", st.marginRight),
     ("marginBottom", st.marginBottom), ("marginLeft", st.marginLeft),
     ("paddingTop", st.paddingTop), ("paddingRight", st.paddingRight),
     ("paddingBottom", st.paddingBottom), ("paddingLeft", st.paddingLeft),
     ("flexDirection", st.flexDirection), ("flexWrap", st.flexWrap),
     ("justifyContent", st.justifyContent), ("alignItems", st.alignItems),
     ("alignContent", st.alignContent), ("flexGrow", st.flexGrow),
     ("flexShrink", st.flexShrink), ("backgroundColor", st.backgroundColor),
     ("backgroundImage", st.backgroundImage), ("opacity", st.opacity),
     ("visibility", st.visibility), ("zIndex", st.zIndex),
     ("borderWidth", st.borderWidth), ("borderColor", st.borderColor),
     ("borderStyle", st.borderStyle), ("borderRadius", st.borderRadius),
     ("color", st.color), ("fontSize", st.fontSize),
     ("fontFamily", st.fontFamily), ("fontWeight", st.fontWeight),
     ("textAlign", st.textAlign), ("whiteSpace", st.whiteSpace)]

mutual

/-- The `JSON.stringify(tree)` of the sampler, with the key order in which
`traverse` assigns the node's fields. -/
def stringifySnap : SnapNode → String
  | .mk tagName elemId className textContent attributes styles children =>
      "\x7b\"tagName\":" ++ jsonStr tagName ++ ",\"id\":" ++ jsonStr elemId
        ++ ",\"className\":" ++ jsonStr className
        ++ ",\"textContent\":" ++ jsonStrOrNull textContent
        ++ ",\"attributes\":" ++ jsonObjOfPairs attributes
        ++ ",\"styles\":" ++ stylesJson styles
        ++ ",\"children\":[" ++ stringifySnapList children ++ "]\x7d"

def stringifySnapList : List SnapNode → String
  | [] => ""
  | [n] => stringifySnap n
  | n :: ns => stringifySnap n ++ "," ++ stringifySnapList ns

end

/-! ### The rolling string hash of the sampler -/

/-- JS `ToInt32`: wrap an integer into the signed 32-bit range. -/
def toInt32 (n : Int) : Int :=
  (n + 2 ^ 31) % 2 ^ 32 - 2 ^ 31

/-- One iteration of the source loop:
`hash = ((hash << 5) - hash) + charCode; hash = hash & hash`.  The shift
operates on 32-bit integers, the sum is exact in doubles, `hash & hash`
re-coerces to 32 bits.  `charCodeAt` yields UTF-16 units, which agree with
Lean code points on the basic plane. -/
def simpleHashStep (hash : Int) (c : Char) : Int :=
  toInt32 (toInt32 (hash * 32) - hash + c.toNat)

/-- Source `simpleHash(str)`. -/
def simpleHash (str : String) : Int :=
  str.data.foldl simpleHashStep 0

/-- JS `Number#toString()` for a 32-bit integer value: decimal digits with a
leading minus sign for negatives. -/
def jsIntToString : Int → String
  | .ofNat m => Nat.repr m
  | .negSucc m => "-" ++ Nat.repr (m + 1)

/-! ### Host-side snapshot persistence and the sampler loop -/

/-- The first eight hex characters of the digest
(`digest('hex').substring(0, 8)`). -/
def snapshotShortHash (md5shex : String → String) (jsonString : String) : String :=
  String.mk ((md5shex jsonString).data.take 8)

/-- Source filename `snapshot_${timestamp}_${hash}.json`. -/
def snapshotFilename (md5shex : String → String) (now : Nat) (jsonString : String) :
    String :=
  "snapshot_" ++ Nat.repr now ++ "_" ++ snapshotShortHash md5shex jsonString ++ ".json"

/-- Full path of a persisted snapshot. -/
def snapshotPath (md5shex : String → String) (now : Nat) (jsonString : String) :
    String :=
  SNAPSHOTS_DIR ++ "/" ++ snapshotFilename md5shex now jsonString

/-- Page-session state: the sampler's `lastHash` accumulator, the snapshot
files written by the host (newest first), the snapshot strings forwarded
through the exposed `saveSnapshot` call (newest first), and console
output. -/
structure SnapSession where
  lastHash : String
  snapFiles : List (String × String)
  forwarded : List String
  consoleLines : List String
deriving DecidableEq

/-- Initial state: `let lastHash = ''` and nothing written. -/
def initialSnapSession : SnapSession :=
  { lastHash := "", snapFiles := [], forwarded := [], consoleLines := [] }

/-- Host-side `saveSnapshot(jsonString)` with its try/catch; `ioFails`
models `writeFileSync` throwing, which only logs the failure. -/
def saveSnapshot (md5shex : String → String) (now : Nat) (ioFails : Bool)
    (jsonString : String) (s : SnapSession) : SnapSession :=
  if ioFails then
    { s with consoleLines := "Failed to save snapshot" :: s.consoleLines }
  else
    let filename := snapshotFilename md5shex now jsonString
    let filepath := SNAPSHOTS_DIR ++ "/" ++ filename
    { s with
        snapFiles := (filepath, jsonString) :: s.snapFiles,
        consoleLines := ("Saved Snapshot: " ++ filename) :: s.consoleLines }

/-- One tick of the in-page `setInterval` loop: the instant `Date.now()`
reads inside `saveSnapshot`, the current `document.body` (absent before the
DOM exists), and the write-failure oracle for this tick. -/
structure SamplerTick where
  now : Nat
  body : Option DomNode
  ioFails : Bool

/-- Source sampler cycle: bail out without a body or when the body prunes
away; otherwise serialize, hash, and on a hash change update `lastHash`,
forward the string through the exposed call and persist it. -/
def samplerCycle (md5shex : String → String) (t : SamplerTick) (s : SnapSession) :
    SnapSession :=
  match t.body with
  | none => s
  | some body =>
      match traverse body with
      | none => s
      | some tree =>
          let jsonString := stringifySnap tree
          let currentHash := jsIntToString (simpleHash jsonString)
          if currentHash ≠ s.lastHash then
            saveSnapshot md5shex t.now t.ioFails jsonString
              { s with lastHash := currentHash, forwarded := jsonString :: s.forwarded }
          else s

/-- The sampler processes its ticks in order. -/
def runSampler (md5shex : String → String) (ticks : List SamplerTick)
    (s : SnapSession) : SnapSession :=
  ticks.foldl (fun st t => samplerCycle md5shex t st) s

/-! ### Asset-map flush at session end -/

/-- Keys in first-assignment order, as a JS object iterates them. -/
def firstOccurrenceKeys : List String → List String
  | [] => []
  | k :: ks => k :: firstOccurrenceKeys (ks.filter (fun x => decide (x ≠ k)))
termination_by l => l.length
decreasing_by
  simp only [List.length_cons]
  exact Nat.lt_succ_of_le (List.length_filter_le _ _)

/-- Current value of a key: the newest assignment wins. -/
def jsLookup (m : List (String × String)) (k : String) : String :=
  ((m.find? (fun p => decide (p.1 = k))).map Prod.snd).getD ""

/-- The entries of the asset map as the JS object holds them: keys in
first-assignment order, each carrying its latest value (`m` is
newest-assignment-first). -/
def jsObjectEntries (m : List (String × String)) : List (String × String) :=
  (firstOccurrenceKeys ((m.reverse).map Prod.fst)).map (fun k => (k, jsLookup m k))

/-- Join pretty-printed entry lines with a comma and newline. -/
def jsonJoinNl : List String → String
  | [] => ""
  | [x] => x
  | x :: xs => x ++ ",\n" ++ jsonJoinNl xs

/-- The flushed file content, `JSON.stringify(assetMap, null, 2)`. -/
def serializeAssetMap (m : List (String × String)) : String :=
  let entries := jsObjectEntries m
  if entries.isEmpty then "\x7b\x7d"
  else
    "\x7b\n"
      ++ jsonJoinNl (entries.map (fun p => "  " ++ jsonStr p.1 ++ ": " ++ jsonStr p.2))
      ++ "\n\x7d"

/-- The writes the host performs after `page.waitForEvent('close')`
resolves: the asset map is serialized once, to `assets_map.json`,
`writeFileSync` overwriting any prior file. -/
def sessionEndWrites (md5hex : List Nat → String) (evs : List BrowserEvent) :
    List (String × String) :=
  [(ASSETS_MAP_FILE,
    serializeAssetMap (processEvents md5hex evs initialCaptureState).assetMap)]

/-! ### Characterization definitions and concrete instances -/

/-- What `saveFile` does to the filesystem, as a function of the prior
filesystem alone. -/
def filesAfterSave (md5hex : List Nat → String) (response : JsResponse)
    (type dir : String) (files : List (String × List Nat)) :
    List (String × List Nat) :=
  match response.body? with
  | none => files
  | some buffer =>
      let filepath := dir ++ "/" ++ (md5hex buffer ++ getExtension response type)
      if fsExistsSync files filepath then files else (filepath, buffer) :: files

/-- What `saveFile` does to the asset map: on a successful body read the
entry is recorded whether or not a file was written. -/
def assetMapAfterSave (md5hex : List Nat → String) (response : JsResponse)
    (type : String) (m : List (String × String)) : List (String × String) :=
  match response.body? with
  | none => m
  | some buffer => (response.url, md5hex buffer ++ getExtension response type) :: m

/-- The content-type string `getExtension` inspects. -/
def contentTypeOf (response : JsResponse) : String :=
  (headerLookup response.headers "content-type").getD ""

/-- Occurrence of a node anywhere in a snapshot tree (the node itself or in
a descendant position). -/
inductive SnapOccurs : SnapNode → SnapNode → Prop where
  | refl (t : SnapNode) : SnapOccurs t t
  | child {n c : SnapNode} (tagName elemId className : String)
      (textContent : Option String) (attributes : List (String × String))
      (styles : ComputedStyle) (children : List SnapNode) :
      c ∈ children → SnapOccurs n c →
      SnapOccurs n (SnapNode.mk tagName elemId className textContent attributes
        styles children)

/-- Constant stand-in digest for concrete runs.  The code relies only on
the digest being a deterministic function of the bytes, and every concrete
run below hashes a single distinct payload, where any deterministic
function (including the real md5) yields one fixed digest string. -/
def md5c : List Nat → String := fun _ => "0123456789abcdef0123456789abcdef"

/-- String-input stand-in digest for concrete sampler runs. -/
def md5s : String → String := fun _ => "fedcba9876543210fedcba9876543210"

/-- A shared payload: the bytes returned by two different URLs. -/
def bodyBytes : List Nat := [137, 80, 78, 71]

/-- A successful tracked image response, served as `image/png`. -/
def respA : JsResponse :=
  { url := "https://game.example/a", pathname := "/a",
    headers := [("content-type", "image/png")], ok := true, status := 200,
    method := "GET", resourceType := "image", body? := some bodyBytes }

/-- A successful tracked image response with the same body bytes as `respA`
but served as `image/jpeg` from a different URL. -/
def respB : JsResponse :=
  { url := "https://game.example/b", pathname := "/b",
    headers := [("content-type", "image/jpeg")], ok := true, status := 200,
    method := "GET", resourceType := "image", body? := some bodyBytes }

/-- Same bytes and content type as `respA`, different URL. -/
def respC : JsResponse :=
  { url := "https://game.example/c", pathname := "/c",
    headers := [("content-type", "image/png")], ok := true, status := 200,
    method := "GET", resourceType := "image", body? := some bodyBytes }

/-- A sample computed style used by concrete DOM instances. -/
def styleW : ComputedStyle :=
  { display := "block", position := "static", top := "auto", left := "auto",
    right := "auto", bottom := "auto", width := "100px", height := "50px",
    marginTop := "0px", marginRight := "0px", marginBottom := "0px",
    marginLeft := "0px", paddingTop := "0px", paddingRight := "0px",
    paddingBottom := "0px", paddingLeft := "0px", flexDirection := "row",
    flexWrap := "nowrap", justifyContent := "normal", alignItems := "normal",
    alignContent := "normal", flexGrow := "0", flexShrink := "1",
    backgroundColor := "rgb(0, 0, 0)", backgroundImage := "none",
    opacity := "1", visibility := "visible", zIndex := "auto",
    borderWidth := "0px", borderColor := "rgb(0, 0, 0)",
    borderStyle := "none", borderRadius := "0px", color := "rgb(0, 0, 0)",
    fontSize := "16px", fontFamily := "serif", fontWeight := "400",
    textAlign := "start", whiteSpace := "normal" }

/-- A concrete text-bearing `DIV` element. -/
def divW : DomNode :=
  DomNode.element "DIV" "d1" "box" [("data-k", "v")] styleW
    [DomNode.textNode "  hello  "]

/-- A concrete page body: a `BODY` with one text-bearing `DIV`. -/
def bodyW : DomNode := DomNode.element "BODY" "" "" [] styleW [divW]

/-- A second concrete page body that serializes differently. -/
def bodyW2 : DomNode :=
  DomNode.element "BODY" "" "" [] styleW
    [DomNode.element "DIV" "d2" "box" [] styleW [DomNode.textNode "bye"]]

/-- A `SCRIPT` element with a child subtree. -/
def scriptW : DomNode := DomNode.element "SCRIPT" "" "" [] styleW [divW]

/-- The snapshot node `traverse` produces for `divW`. -/
def tDivW : SnapNode :=
  SnapNode.mk "DIV" "d1" "box" (some "hello") [("data-k", "v")] styleW []

/-- The snapshot node `traverse` produces for `bodyW`. -/
def treeW : SnapNode := SnapNode.mk "BODY" "" "" none [] styleW [tDivW]

/-- A computed style that is fully transparent but not `display: none`. -/
def styleOp0 : ComputedStyle := { styleW with opacity := "0" }

/-- Sampler ticks for concrete runs. -/
def tickW : SamplerTick := { now := 1000, body := some bodyW, ioFails := false }

def tick2W : SamplerTick := { now := 3000, body := some bodyW2, ioFails := false }

def tickSameW : SamplerTick := { now := 3000, body := some bodyW, ioFails := false }

def tickNoneW : SamplerTick := { now := 5000, body := none, ioFails := false }

def tickPrunedW : SamplerTick :=
  { now := 7000, body := some scriptW, ioFails := false }

/-- A concrete request for logging runs. -/
def reqW : JsRequest :=
  { url := "https://game.example/a", method := "GET",
    headers := [("accept", "image/png")], postData := none }

/-! ### Facts about decimal printing

`Nat.repr` is injective and never empty; both are needed for the snapshot
filename and change-gate claims. -/

/-- Numeric value of a decimal digit character. -/
def digitVal (c : Char) : Nat := c.toNat - 48

/-- Value of a decimal digit string (most significant first). -/
def digitsVal (l : List Char) : Nat :=
  l.foldl (fun a c => a * 10 + digitVal c) 0

theorem digitVal_digitChar : ∀ d, d < 10 → digitVal (Nat.digitChar d) = d := by decide

theorem toDigitsCore_shift (b : Nat) :
    ∀ (fuel n : Nat) (ds : List Char),
      Nat.toDigitsCore b fuel n ds = Nat.toDigitsCore b fuel n [] ++ ds := by
  intro fuel
  induction fuel with
  | zero => intro n ds; simp [Nat.toDigitsCore]
  | succ f ih =>
      intro n ds
      simp only [Nat.toDigitsCore]
      by_cases h : n / b = 0
      · simp [h]
      · simp only [h, if_false]
        rw [ih (n / b) (Nat.digitChar (n % b) :: ds),
          ih (n / b) [Nat.digitChar (n % b)], List.append_assoc, List.singleton_append]

theorem digitsVal_append_singleton (l : List Char) (c : Char) :
    digitsVal (l ++ [c]) = digitsVal l * 10 + digitVal c := by
  simp [digitsVal, List.foldl_append]

theorem digitsVal_toDigitsCore :
    ∀ n fuel, n < fuel → digitsVal (Nat.toDigitsCore 10 fuel n []) = n := by
  intro n
  induction n using Nat.strong_induction_on with
  | _ n ih =>
    intro fuel hfuel
    match fuel, hfuel with
    | f + 1, hfuel =>
      simp only [Nat.toDigitsCore]
      by_cases h0 : n / 10 = 0
      · simp only [h0, if_true]
        have hn : n < 10 := by omega
        have hd := digitVal_digitChar (n % 10) (by omega)
        simp only [digitsVal, List.foldl_cons, List.foldl_nil]
        omega
      · simp only [h0, if_false]
        rw [toDigitsCore_shift, digitsVal_append_singleton]
        have hlt : n / 10 < n := by omega
        have hf : n / 10 < f := by omega
        rw [ih (n / 10) hlt f hf]
        have hd := digitVal_digitChar (n % 10) (by omega)
        omega

theorem natRepr_inj {m n : Nat} (h : Nat.repr m = Nat.repr n) : m = n := by
  have hdata : Nat.toDigits 10 m = Nat.toDigits 10 n := by
    have := congrArg String.data h
    simpa [Nat.repr, List.asString] using this
  have hm := digitsVal_toDigitsCore m (m + 1) (Nat.lt_succ_self m)
  have hn := digitsVal_toDigitsCore n (n + 1) (Nat.lt_succ_self n)
  simp only [Nat.toDigits] at hdata
  rw [← hm, ← hn, hdata]

theorem toDigits_ne_nil (n : Nat) : Nat.toDigits 10 n ≠ [] := by
  simp only [Nat.toDigits, Nat.toDigitsCore]
  by_cases h0 : n / 10 = 0
  · simp [h0]
  · simp only [h0, if_false]
    rw [toDigitsCore_shift]
    simp

theorem natRepr_ne_empty (n : Nat) : Nat.repr n ≠ "" := by
  intro h
  have := congrArg String.data h
  simp only [Nat.repr, List.asString] at this
  exact toDigits_ne_nil n this

theorem natRepr_length_pos (n : Nat) : 0 < (Nat.repr n).length := by
  have h := natRepr_ne_empty n
  cases hd : (Nat.repr n).data with
  | nil => exact absurd (String.ext hd) h
  | cons c cs => simp [String.length, hd]

/-- The sampler's hash string is never the empty string, so it can never
equal the initial `lastHash`. -/
theorem jsIntToString_ne_empty (i : Int) : jsIntToString i ≠ "" := by
  cases i with
  | ofNat m => simpa [jsIntToString] using natRepr_ne_empty m
  | negSucc m =>
      intro h
      have := congrArg String.data h
      simp [jsIntToString] at this

/-! ### Snapshot filename uniqueness groundwork -/

theorem snapshotShortHash_length (md5shex : String → String)
    (h8 : ∀ s, 8 ≤ (md5shex s).length) (j : String) :
    (snapshotShortHash md5shex j).data.length = 8 := by
  have hj := h8 j
  have hj2 : (md5shex j).length = (md5shex j).data.length := rfl
  show ((md5shex j).data.take 8).length = 8
  rw [List.length_take]
  omega

/-- Distinct write-time timestamps give distinct snapshot paths: the fixed
pieces around the timestamp have fixed lengths (the short hash is always
eight characters), so the decimal timestamp segments must coincide, and
decimal printing is injective. -/
theorem snapshotPath_time_inj (md5shex : String → String)
    (h8 : ∀ s, 8 ≤ (md5shex s).length) {t1 t2 : Nat} {j1 j2 : String}
    (hne : t1 ≠ t2) : snapshotPath md5shex t1 j1 ≠ snapshotPath md5shex t2 j2 := by
  intro h
  apply hne
  have hd := congrArg String.data h
  simp only [snapshotPath, snapshotFilename, SNAPSHOTS_DIR, OUTPUT_DIR,
    String.data_append, List.append_assoc] at hd
  have hd1 := List.append_cancel_left hd
  have hd2 := List.append_cancel_left hd1
  have hd3 := List.append_cancel_left hd2
  have hd4 := List.append_cancel_left hd3
  have hrepr := List.append_inj_left' hd4
    (by simp [List.length_append, snapshotShortHash_length md5shex h8])
  exact natRepr_inj (String.ext hrepr)

/-- One sampler cycle either leaves the snapshot directory untouched or
writes exactly one file, named from the tick's instant. -/
theorem samplerCycle_files (md5shex : String → String) (t : SamplerTick)
    (s : SnapSession) :
    (samplerCycle md5shex t s).snapFiles = s.snapFiles
    ∨ ∃ j, (samplerCycle md5shex t s).snapFiles
        = (snapshotPath md5shex t.now j, j) :: s.snapFiles := by
  cases hb : t.body with
  | none => left; simp [samplerCycle, hb]
  | some b =>
      cases htr : traverse b with
      | none => left; simp [samplerCycle, hb, htr]
      | some tree =>
          by_cases hc : jsIntToString (simpleHash (stringifySnap tree)) = s.lastHash
          · left; simp [samplerCycle, hb, htr, hc]
          · by_cases hio : t.ioFails
            · left; simp [samplerCycle, hb, htr, hc, saveSnapshot, hio]
            · right
              exact ⟨stringifySnap tree,
                by simp [samplerCycle, hb, htr, hc, saveSnapshot, hio, snapshotPath]⟩

/-- The snapshot files a run adds are, in reverse order, a selection of the
ticks, each file named from its tick's instant. -/
theorem runSampler_files_spec (md5shex : String → String) :
    ∀ (ticks : List SamplerTick) (s : SnapSession),
      ∃ ws : List (Nat × String),
        (runSampler md5shex ticks s).snapFiles
          = ws.map (fun w => (snapshotPath md5shex w.1 w.2, w.2)) ++ s.snapFiles
        ∧ List.Sublist (ws.map Prod.fst) ((ticks.map SamplerTick.now).reverse) := by
  intro ticks
  induction ticks with
  | nil => exact fun s => ⟨[], by simp [runSampler], by simp⟩
  | cons t ts ih =>
      intro s
      have hrun : runSampler md5shex (t :: ts) s
          = runSampler md5shex ts (samplerCycle md5shex t s) := rfl
      obtain ⟨ws', hw1, hw2⟩ := ih (samplerCycle md5shex t s)
      cases samplerCycle_files md5shex t s with
      | inl hsame =>
          refine ⟨ws', ?_, ?_⟩
          · rw [hrun, hw1, hsame]
          · refine hw2.trans ?_
            simp only [List.map_cons, List.reverse_cons]
            exact List.sublist_append_left _ _
      | inr hex =>
          obtain ⟨j, hj⟩ := hex
          refine ⟨ws' ++ [(t.now, j)], ?_, ?_⟩
          · rw [hrun, hw1, hj]
            simp [List.map_append]
          · simp only [List.map_append, List.map_cons, List.map_nil,
              List.reverse_cons]
            exact List.Sublist.append hw2 (List.Sublist.refl _)

/-! ### Characterizations of the capture handlers -/

theorem saveFile_files (md5hex : List Nat → String) (response : JsResponse)
    (type dir : String) (s : CaptureState) :
    (saveFile md5hex response type dir s).files
      = filesAfterSave md5hex response type dir s.files := by
  unfold saveFile filesAfterSave
  cases response.body? with
  | none => rfl
  | some b => dsimp only; split <;> rfl

theorem saveFile_assetMap (md5hex : List Nat → String) (response : JsResponse)
    (type dir : String) (s : CaptureState) :
    (saveFile md5hex response type dir s).assetMap
      = assetMapAfterSave md5hex response type s.assetMap := by
  unfold saveFile assetMapAfterSave
  cases response.body? with
  | none => rfl
  | some b => dsimp only; split <;> rfl

theorem saveFile_httpLog (md5hex : List Nat → String) (response : JsResponse)
    (type dir : String) (s : CaptureState) :
    (saveFile md5hex response type dir s).httpLog = s.httpLog := by
  unfold saveFile
  cases response.body? with
  | none => rfl
  | some b => dsimp only; split <;> rfl

theorem saveFile_wsLog (md5hex : List Nat → String) (response : JsResponse)
    (type dir : String) (s : CaptureState) :
    (saveFile md5hex response type dir s).wsLog = s.wsLog := by
  unfold saveFile
  cases response.body? with
  | none => rfl
  | some b => dsimp only; split <;> rfl

/-- The response handler's filesystem effect. -/
theorem onResponse_files (md5hex : List Nat → String) (now : Nat)
    (response : JsResponse) (s : CaptureState) :
    (onResponse md5hex now response s).files
      = (if response.ok then
          if response.resourceType = "image" then
            filesAfterSave md5hex response "image" TEXTURES_DIR s.files
          else if response.resourceType = "script" then
            filesAfterSave md5hex response "script" SCRIPTS_DIR s.files
          else s.files
         else s.files) := by
  unfold onResponse
  by_cases hok : response.ok <;>
    by_cases him : response.resourceType = "image" <;>
      by_cases hsc : response.resourceType = "script" <;>
        simp [hok, him, hsc, saveFile_files]

/-- The response handler's asset-map effect. -/
theorem onResponse_assetMap (md5hex : List Nat → String) (now : Nat)
    (response : JsResponse) (s : CaptureState) :
    (onResponse md5hex now response s).assetMap
      = (if response.ok ∧
            (response.resourceType = "image" ∨ response.resourceType = "script") then
          assetMapAfterSave md5hex response
            (if response.resourceType = "image" then "image" else "script") s.assetMap
         else s.assetMap) := by
  unfold onResponse
  by_cases hok : response.ok <;>
    by_cases him : response.resourceType = "image" <;>
      by_cases hsc : response.resourceType = "script" <;>
        simp [hok, him, hsc, saveFile_assetMap]

theorem onResponse_httpLog (md5hex : List Nat → String) (now : Nat)
    (response : JsResponse) (s : CaptureState) :
    (onResponse md5hex now response s).httpLog
      = s.httpLog ++ [responseLogEntry now response] := by
  unfold onResponse
  by_cases hok : response.ok <;>
    by_cases him : response.resourceType = "image" <;>
      by_cases hsc : response.resourceType = "script" <;>
        simp [hok, him, hsc, saveFile_httpLog]

theorem onResponse_wsLog (md5hex : List Nat → String) (now : Nat)
    (response : JsResponse) (s : CaptureState) :
    (onResponse md5hex now response s).wsLog = s.wsLog := by
  unfold onResponse
  by_cases hok : response.ok <;>
    by_cases him : response.resourceType = "image" <;>
      by_cases hsc : response.resourceType = "script" <;>
        simp [hok, him, hsc, saveFile_wsLog]

/-- Each event appends its record (if any) to the HTTP stream. -/
theorem onEvent_httpLog (md5hex : List Nat → String) (s : CaptureState)
    (e : BrowserEvent) :
    (onEvent md5hex s e).httpLog = s.httpLog ++ (httpRecordOf e).toList := by
  cases e <;> simp [onEvent, httpRecordOf, onResponse_httpLog]

/-- Each event appends its record (if any) to the WebSocket stream. -/
theorem onEvent_wsLog (md5hex : List Nat → String) (s : CaptureState)
    (e : BrowserEvent) :
    (onEvent md5hex s e).wsLog = s.wsLog ++ (wsRecordOf e).toList := by
  cases e <;> simp [onEvent, wsRecordOf, onResponse_wsLog]

theorem processEvents_cons (md5hex : List Nat → String) (e : BrowserEvent)
    (es : List BrowserEvent) (s : CaptureState) :
    processEvents md5hex (e :: es) s = processEvents md5hex es (onEvent md5hex s e) := rfl

theorem processEvents_httpLog (md5hex : List Nat → String) :
    ∀ (evs : List BrowserEvent) (s : CaptureState),
      (processEvents md5hex evs s).httpLog
        = s.httpLog ++ evs.filterMap httpRecordOf := by
  intro evs
  induction evs with
  | nil => intro s; simp [processEvents]
  | cons e es ih =>
      intro s
      rw [processEvents_cons, ih, onEvent_httpLog]
      cases he : httpRecordOf e <;> simp [List.filterMap_cons, he]

theorem processEvents_wsLog (md5hex : List Nat → String) :
    ∀ (evs : List BrowserEvent) (s : CaptureState),
      (processEvents md5hex evs s).wsLog
        = s.wsLog ++ evs.filterMap wsRecordOf := by
  intro evs
  induction evs with
  | nil => intro s; simp [processEvents]
  | cons e es ih =>
      intro s
      rw [processEvents_cons, ih, onEvent_wsLog]
      cases he : wsRecordOf e <;> simp [List.filterMap_cons, he]

/-- The HTTP records' timestamps are those of the HTTP events, in order. -/
theorem httpRecord_timestamps_sublist :
    ∀ evs : List BrowserEvent,
      List.Sublist ((evs.filterMap httpRecordOf).map LogRecord.timestamp)
        (evs.map eventTime) := by
  intro evs
  induction evs with
  | nil => simp
  | cons e es ih =>
      cases e with
      | httpRequest now request =>
          simp only [List.filterMap_cons, httpRecordOf, List.map_cons, eventTime,
            requestLogEntry]
          exact List.Sublist.cons₂ _ ih
      | httpResponse now response =>
          simp only [List.filterMap_cons, httpRecordOf, List.map_cons, eventTime,
            responseLogEntry]
          exact List.Sublist.cons₂ _ ih
      | wsFrameSent now url payload =>
          simp only [List.filterMap_cons, httpRecordOf, List.map_cons, eventTime]
          exact List.Sublist.cons _ ih
      | wsFrameReceived now url payload =>
          simp only [List.filterMap_cons, httpRecordOf, List.map_cons, eventTime]
          exact List.Sublist.cons _ ih

/-- Files and asset map after an event depend only on the files and asset
map before it (not on the log streams or console). -/
theorem onEvent_files_assetMap_congr (md5hex : List Nat → String)
    (e : BrowserEvent) (s₁ s₂ : CaptureState) (hf : s₁.files = s₂.files)
    (hm : s₁.assetMap = s₂.assetMap) :
    (onEvent md5hex s₁ e).files = (onEvent md5hex s₂ e).files
    ∧ (onEvent md5hex s₁ e).assetMap = (onEvent md5hex s₂ e).assetMap := by
  cases e with
  | httpRequest now request => exact ⟨hf, hm⟩
  | wsFrameSent now url payload => exact ⟨hf, hm⟩
  | wsFrameReceived now url payload => exact ⟨hf, hm⟩
  | httpResponse now response =>
      constructor
      · simp only [onEvent, onResponse_files, hf]
      · simp only [onEvent, onResponse_assetMap, hm, hf]

theorem processEvents_files_assetMap_congr (md5hex : List Nat → String) :
    ∀ (evs : List BrowserEvent) (s₁ s₂ : CaptureState),
      s₁.files = s₂.files → s₁.assetMap = s₂.assetMap →
      (processEvents md5hex evs s₁).files = (processEvents md5hex evs s₂).files
      ∧ (processEvents md5hex evs s₁).assetMap
          = (processEvents md5hex evs s₂).assetMap := by
  intro evs
  induction evs with
  | nil => intro s₁ s₂ hf hm; exact ⟨hf, hm⟩
  | cons e es ih =>
      intro s₁ s₂ hf hm
      obtain ⟨hf', hm'⟩ := onEvent_files_assetMap_congr md5hex e s₁ s₂ hf hm
      exact ih (onEvent md5hex s₁ e) (onEvent md5hex s₂ e) hf' hm'

/-! ### Claim theorems -/

/-- C1, counterexample: two tracked successful responses with identical
body bytes and differing URLs, one served as `image/png` and one as
`image/jpeg`, produce TWO files in the textures category, because the
filename is `hash ++ ext` and the extension comes from the content-type
header, not from the bytes.  This refutes the claim that identical body
bytes always yield exactly one asset file within a category. -/
theorem C1_counterexample :
    respA.body? = respB.body?
    ∧ respA.url ≠ respB.url
    ∧ respA.ok = true ∧ respB.ok = true
    ∧ respA.resourceType = "image" ∧ respB.resourceType = "image"
    ∧ (processEvents md5c
        [BrowserEvent.httpResponse 1 respA, BrowserEvent.httpResponse 2 respB]
        initialCaptureState).files
      = [(TEXTURES_DIR ++ "/0123456789abcdef0123456789abcdef.jpg", bodyBytes),
         (TEXTURES_DIR ++ "/0123456789abcdef0123456789abcdef.png", bodyBytes)] := by
  refine ⟨rfl, by decide, rfl, rfl, rfl, rfl, by decide⟩

/-- C1, amended: for tracked successful responses with identical body
bytes AND identical inferred extension, exactly one asset file is produced
within the category: the second `saveFile` computes the same
`{hash}{ext}` path, finds it present, and skips the write — even for two
responses with differing URLs (the URLs are unconstrained here). -/
theorem C1_amended_dedup (md5hex : List Nat → String) (r1 r2 : JsResponse)
    (type dir : String) (s : CaptureState) (buffer : List Nat)
    (h1 : r1.body? = some buffer) (h2 : r2.body? = some buffer)
    (hext : getExtension r2 type = getExtension r1 type)
    (hnew : fsExistsSync s.files
        (dir ++ "/" ++ (md5hex buffer ++ getExtension r1 type)) = false) :
    (saveFile md5hex r2 type dir (saveFile md5hex r1 type dir s)).files
      = (dir ++ "/" ++ (md5hex buffer ++ getExtension r1 type), buffer)
          :: s.files := by
  have hinner : filesAfterSave md5hex r1 type dir s.files
      = (dir ++ "/" ++ (md5hex buffer ++ getExtension r1 type), buffer)
          :: s.files := by
    unfold filesAfterSave
    simp only [h1]
    rw [if_neg (by simp [hnew])]
  rw [saveFile_files, saveFile_files, hinner]
  unfold filesAfterSave
  simp only [h2]
  rw [hext]
  rw [if_pos (by simp [fsExistsSync])]

/-- C1 amended, witness: the two `image/png` responses `respA` and `respC`
share their bytes and inferred extension, so from an empty filesystem the
two saves leave exactly one file. -/
theorem C1_amended_dedup_witness :
    (saveFile md5c respC "image" TEXTURES_DIR
        (saveFile md5c respA "image" TEXTURES_DIR initialCaptureState)).files
      = [(TEXTURES_DIR ++ "/" ++ (md5c bodyBytes ++ getExtension respA "image"),
          bodyBytes)] :=
  C1_amended_dedup md5c respA respC "image" TEXTURES_DIR initialCaptureState
    bodyBytes rfl rfl (by decide) (by decide)

/-- C3: extension inference order.  (a) when the content-type contains a
known string the fixed table entry wins (shown at the claim's `image/webp`
instance, assuming the earlier table entries do not also match); (b) when
no table entry matches, the non-empty URL path extension is used; (c) when
that is empty too, the category default applies; and the claim's concrete
example: `image/webp` with a URL ending in `.jpg` yields `.webp`. -/
theorem C3_extension_inference (response : JsResponse) (type : String) :
    (jsIncludes (contentTypeOf response) "image/png" = false →
     jsIncludes (contentTypeOf response) "image/jpeg" = false →
     jsIncludes (contentTypeOf response) "image/webp" = true →
     getExtension response type = ".webp")
    ∧ (jsIncludes (contentTypeOf response) "image/png" = false →
       jsIncludes (contentTypeOf response) "image/jpeg" = false →
       jsIncludes (contentTypeOf response) "image/webp" = false →
       jsIncludes (contentTypeOf response) "image/gif" = false →
       jsIncludes (contentTypeOf response) "javascript" = false →
       jsIncludes (contentTypeOf response) "application/x-javascript" = false →
       extnameOf response.pathname ≠ "" →
       getExtension response type = extnameOf response.pathname)
    ∧ (jsIncludes (contentTypeOf response) "image/png" = false →
       jsIncludes (contentTypeOf response) "image/jpeg" = false →
       jsIncludes (contentTypeOf response) "image/webp" = false →
       jsIncludes (contentTypeOf response) "image/gif" = false →
       jsIncludes (contentTypeOf response) "javascript" = false →
       jsIncludes (contentTypeOf response) "application/x-javascript" = false →
       extnameOf response.pathname = "" →
       getExtension response type = (if type = "image" then ".png" else ".js"))
    ∧ getExtension
        { url := "https://game.example/t.jpg", pathname := "/t.jpg",
          headers := [("content-type", "image/webp")], ok := true,
          status := 200, method := "GET", resourceType := "image",
          body? := some [] } "image" = ".webp" := by
  refine ⟨?_, ?_, ?_, by decide⟩
  · intro hp hj hw
    simp [getExtension, contentTypeOf] at hp hj hw ⊢
    simp [hp, hj, hw]
  · intro hp hj hw hg hs1 hs2 hurl
    simp [getExtension, contentTypeOf] at hp hj hw hg hs1 hs2 ⊢
    simp [hp, hj, hw, hg, hs1, hs2, hurl]
  · intro hp hj hw hg hs1 hs2 hurl
    simp [getExtension, contentTypeOf] at hp hj hw hg hs1 hs2 ⊢
    simp [hp, hj, hw, hg, hs1, hs2, hurl]

/-- C3 witness: all three tiers at concrete responses: a `text/plain`
response with a `.css` URL gets `.css`; an extensionless one gets the
image default `.png` and the script default `.js`. -/
theorem C3_extension_inference_witness :
    getExtension
      { url := "https://game.example/s.css", pathname := "/s.css",
        headers := [("content-type", "text/plain")], ok := true, status := 200,
        method := "GET", resourceType := "image", body? := some [] } "image"
      = ".css"
    ∧ getExtension
        { url := "https://game.example/bare", pathname := "/bare",
          headers := [], ok := true, status := 200, method := "GET",
          resourceType := "image", body? := some [] } "image" = ".png"
    ∧ getExtension
        { url := "https://game.example/bare", pathname := "/bare",
          headers := [], ok := true, status := 200, method := "GET",
          resourceType := "script", body? := some [] } "script" = ".js" := by
  refine ⟨?_, ?_, ?_⟩
  · exact (C3_extension_inference _ "image").2.1 (by decide) (by decide)
      (by decide) (by decide) (by decide) (by decide) (by decide)
  · exact ((C3_extension_inference _ "image").2.2.1 (by decide) (by decide)
      (by decide) (by decide) (by decide) (by decide) (by decide)).trans
      (by decide)
  · exact ((C3_extension_inference _ "script").2.2.1 (by decide) (by decide)
      (by decide) (by decide) (by decide) (by decide) (by decide)).trans
      (by decide)

/-- C4: inclusion predicate.  A response failing the predicate (not ok, or
an untracked resource type) changes neither the filesystem nor the asset
map, though its log record is still appended; a response satisfying it is
handed to `saveFile` with the matching category directory, and when its
body reads successfully and the content file is new, the body bytes are
persisted there. -/
theorem C4_inclusion_predicate (md5hex : List Nat → String) (now : Nat)
    (response : JsResponse) (s : CaptureState) :
    ((response.ok = false
        ∨ (response.resourceType ≠ "image" ∧ response.resourceType ≠ "script")) →
      (onResponse md5hex now response s).files = s.files
      ∧ (onResponse md5hex now response s).assetMap = s.assetMap
      ∧ (onResponse md5hex now response s).httpLog
          = s.httpLog ++ [responseLogEntry now response])
    ∧ (response.ok = true → response.resourceType = "image" →
        onResponse md5hex now response s
          = saveFile md5hex response "image" TEXTURES_DIR
              { s with httpLog := s.httpLog ++ [responseLogEntry now response] })
    ∧ (response.ok = true → response.resourceType = "script" →
        onResponse md5hex now response s
          = saveFile md5hex response "script" SCRIPTS_DIR
              { s with httpLog := s.httpLog ++ [responseLogEntry now response] })
    ∧ (∀ buffer, response.ok = true → response.resourceType = "image" →
        response.body? = some buffer →
        fsExistsSync s.files
          (TEXTURES_DIR ++ "/" ++ (md5hex buffer ++ getExtension response "image"))
          = false →
        (onResponse md5hex now response s).files
          = (TEXTURES_DIR ++ "/" ++ (md5hex buffer ++ getExtension response "image"),
             buffer) :: s.files) := by
  refine ⟨?_, ?_, ?_, ?_⟩
  · intro hexcl
    refine ⟨?_, ?_, onResponse_httpLog md5hex now response s⟩
    · rw [onResponse_files]
      rcases hexcl with hok | ⟨him, hsc⟩
      · simp [hok]
      · simp [him, hsc]
    · rw [onResponse_assetMap]
      rcases hexcl with hok | ⟨him, hsc⟩
      · simp [hok]
      · simp [him, hsc]
  · intro hok him
    unfold onResponse
    simp [hok, him]
  · intro hok hsc
    unfold onResponse
    by_cases him : response.resourceType = "image"
    · rw [him] at hsc; exact absurd hsc (by decide)
    · simp [hok, him, hsc]
  · intro buffer hok him hb hnew
    rw [onResponse_files]
    simp only [hok, him, if_pos, if_true]
    unfold filesAfterSave
    simp only [hb]
    rw [if_neg (by simp [hnew])]

/-- C4 witness: a successful stylesheet response (untracked type) is
logged but writes nothing; the successful image `respA` from an empty
state writes its body under the content hash in the textures directory. -/
theorem C4_inclusion_predicate_witness :
    (onResponse md5c 7
        { url := "https://game.example/s.css", pathname := "/s.css",
          headers := [("content-type", "text/css")], ok := true, status := 200,
          method := "GET", resourceType := "stylesheet", body? := some [1] }
        initialCaptureState).files = initialCaptureState.files
    ∧ (onResponse md5c 8 respA initialCaptureState).files
        = [(TEXTURES_DIR ++ "/" ++ (md5c bodyBytes ++ getExtension respA "image"),
            bodyBytes)] := by
  constructor
  · exact ((C4_inclusion_predicate md5c 7 _ initialCaptureState).1
      (Or.inr (by decide))).1
  · exact (C4_inclusion_predicate md5c 8 respA initialCaptureState).2.2.2
      bodyBytes rfl rfl rfl (by decide)

/-- C6, counterexample: two responses with identical bytes (hence the same
digest) but different content-type headers get asset-map entries pointing
at DIFFERENT filenames (`.png` vs `.jpg`), refuting the claim's
parenthetical that two URLs producing the same hash always point at the
same filename. -/
theorem C6_counterexample :
    respA.body? = respB.body?
    ∧ (processEvents md5c
        [BrowserEvent.httpResponse 1 respA, BrowserEvent.httpResponse 2 respB]
        initialCaptureState).assetMap
      = [("https://game.example/b", "0123456789abcdef0123456789abcdef.jpg"),
         ("https://game.example/a", "0123456789abcdef0123456789abcdef.png")]
    ∧ ("0123456789abcdef0123456789abcdef.jpg" : String)
        ≠ "0123456789abcdef0123456789abcdef.png" := by
  refine ⟨rfl, by decide, by decide⟩

/-- C6, amended: whenever the body read succeeds, the entry
`url → filename` is recorded in the asset map regardless of whether a new
file was written; two URLs with the same digest AND the same inferred
extension point at the same filename; and the map is serialized exactly
once at session end to `assets_map.json`. -/
theorem C6_amended_asset_map (md5hex : List Nat → String) (r1 r2 : JsResponse)
    (type dir : String) (s : CaptureState) (buffer : List Nat)
    (evs : List BrowserEvent) :
    (r1.body? = some buffer →
      (saveFile md5hex r1 type dir s).assetMap
        = (r1.url, md5hex buffer ++ getExtension r1 type) :: s.assetMap)
    ∧ (r1.body? = some buffer → r2.body? = some buffer →
       getExtension r2 type = getExtension r1 type →
       (saveFile md5hex r2 type dir (saveFile md5hex r1 type dir s)).assetMap
         = (r2.url, md5hex buffer ++ getExtension r1 type)
             :: (r1.url, md5hex buffer ++ getExtension r1 type) :: s.assetMap)
    ∧ sessionEndWrites md5hex evs
        = [(ASSETS_MAP_FILE,
            serializeAssetMap
              (processEvents md5hex evs initialCaptureState).assetMap)]
    ∧ (sessionEndWrites md5hex evs).length = 1 := by
  refine ⟨?_, ?_, rfl, rfl⟩
  · intro h1
    rw [saveFile_assetMap]
    unfold assetMapAfterSave
    simp only [h1]
  · intro h1 h2 hext
    rw [saveFile_assetMap, saveFile_assetMap]
    unfold assetMapAfterSave
    simp only [h1, h2, hext]

/-- C6 amended, witness: `respA` then `respC` (same bytes, same inferred
extension, different URLs) leave both map entries pointing at the same
filename. -/
theorem C6_amended_asset_map_witness :
    (saveFile md5c respC "image" TEXTURES_DIR
        (saveFile md5c respA "image" TEXTURES_DIR initialCaptureState)).assetMap
      = [("https://game.example/c", md5c bodyBytes ++ getExtension respA "image"),
         ("https://game.example/a", md5c bodyBytes ++ getExtension respA "image")] :=
  (C6_amended_asset_map md5c respA respC "image" TEXTURES_DIR
      initialCaptureState bodyBytes []).2.1 rfl rfl (by decide)

/-! ### Traversal lemmas -/

theorem traverseChildren_cons_some {d : DomNode} {n : SnapNode}
    (hd : traverse d = some n) (cs : List DomNode) :
    traverseChildren (d :: cs) = n :: traverseChildren cs := by
  simp [traverseChildren, hd]

theorem traverseChildren_cons_none {d : DomNode} (hd : traverse d = none)
    (cs : List DomNode) : traverseChildren (d :: cs) = traverseChildren cs := by
  simp [traverseChildren, hd]

/-- Every snapshot node in a children list originates from an element of
the source child list that traversed to it. -/
theorem traverseChildren_mem :
    ∀ (l : List DomNode) (c : SnapNode), c ∈ traverseChildren l →
      ∃ el, el ∈ l ∧ traverse el = some c := by
  intro l
  induction l with
  | nil => intro c hc; simp [traverseChildren] at hc
  | cons d ds ih =>
      intro c hc
      cases hd : traverse d with
      | some n =>
          rw [traverseChildren_cons_some hd] at hc
          rcases List.mem_cons.mp hc with h | h
          · exact ⟨d, List.mem_cons_self d ds, by rw [hd, h]⟩
          · obtain ⟨el, hel, htr⟩ := ih c h
            exact ⟨el, List.mem_cons_of_mem _ hel, htr⟩
      | none =>
          rw [traverseChildren_cons_none hd] at hc
          obtain ⟨el, hel, htr⟩ := ih c hc
          exact ⟨el, List.mem_cons_of_mem _ hel, htr⟩

/-- Computation rule for a non-pruned element traversal. -/
theorem traverse_element_not_pruned (tagName elemId className : String)
    (attributes : List (String × String)) (style : ComputedStyle)
    (childNodes : List DomNode) (htag : tagName ∉ excludedTags)
    (hdisp : style.display ≠ "none") :
    traverse (DomNode.element tagName elemId className attributes style
      childNodes)
      = some (SnapNode.mk tagName elemId className
          (snapTextContent childNodes) attributes style
          (traverseChildren childNodes)) := by
  simp only [traverse]
  rw [if_neg htag, if_neg hdisp]

/-- Inversion of a successful element traversal. -/
theorem traverse_element_some {tagName elemId className : String}
    {attributes : List (String × String)} {style : ComputedStyle}
    {childNodes : List DomNode} {t : SnapNode}
    (htr : traverse (DomNode.element tagName elemId className attributes style
      childNodes) = some t) :
    tagName ∉ excludedTags ∧ style.display ≠ "none"
    ∧ t = SnapNode.mk tagName elemId className (snapTextContent childNodes)
        attributes style (traverseChildren childNodes) := by
  by_cases htag : tagName ∈ excludedTags
  · simp [traverse, htag] at htr
  · by_cases hdisp : style.display = "none"
    · simp [traverse, htag, hdisp] at htr
    · refine ⟨htag, hdisp, ?_⟩
      rw [traverse_element_not_pruned tagName elemId className attributes style
        childNodes htag hdisp] at htr
      exact (Option.some_inj.mp htr).symm

/-- Every node occurring anywhere in a serialized tree has a non-excluded
tag and a display other than `none`: pruned elements and their entire
subtrees never appear. -/
theorem traverse_occurs_filtered :
    ∀ {n t : SnapNode}, SnapOccurs n t →
      ∀ el : DomNode, traverse el = some t →
        SnapNode.tagName n ∉ excludedTags
        ∧ (SnapNode.styles n).display ≠ "none" := by
  intro n t hocc
  induction hocc with
  | refl =>
      intro el htr
      cases el with
      | textNode s => simp [traverse] at htr
      | element tag eid cls attrs style cns =>
          obtain ⟨htag, hdisp, hteq⟩ := traverse_element_some htr
          rw [hteq]
          exact ⟨htag, hdisp⟩
  | child tagName elemId className textContent attributes styles children hc hsub ih =>
      intro el htr
      cases el with
      | textNode s => simp [traverse] at htr
      | element tag eid cls attrs style cns =>
          obtain ⟨htag, hdisp, hteq⟩ := traverse_element_some htr
          injection hteq with h1 h2 h3 h4 h5 h6 h7
          obtain ⟨el', hel', htr'⟩ := traverseChildren_mem cns _ (h7 ▸ hc)
          exact ih el' htr'

/-- A pruned child contributes nothing to the serialized children list. -/
theorem traverseChildren_drop_pruned :
    ∀ (pre : List DomNode) (c : DomNode) (post : List DomNode),
      traverse c = none →
      traverseChildren (pre ++ c :: post) = traverseChildren (pre ++ post) := by
  intro pre
  induction pre with
  | nil =>
      intro c post hc
      simpa using traverseChildren_cons_none hc post
  | cons d ds ih =>
      intro c post hc
      simp only [List.cons_append]
      cases hd : traverse d with
      | some n =>
          rw [traverseChildren_cons_some hd, traverseChildren_cons_some hd,
            ih c post hc]
      | none =>
          rw [traverseChildren_cons_none hd, traverseChildren_cons_none hd,
            ih c post hc]

/-! ### Claims C5, C2, C10 -/

/-- C5: snapshot pruning invariants.  (i) an element whose tag is excluded
or whose computed display is `none` traverses to nothing, without
descending; (ii) a pruned child contributes nothing to its parent's
serialized children, so neither it nor its subtree appears; (iii) every
node occurring anywhere in a serialized tree has a non-excluded tag and a
display other than `none`; (iv) an element with `opacity: 0` whose display
is not `none` IS present. -/
theorem C5_prune_invariants (tagName elemId className : String)
    (attributes : List (String × String)) (style : ComputedStyle)
    (childNodes : List DomNode) :
    ((tagName ∈ excludedTags ∨ style.display = "none") →
      traverse (DomNode.element tagName elemId className attributes style
        childNodes) = none)
    ∧ (∀ (pre : List DomNode) (c : DomNode) (post : List DomNode),
        traverse c = none →
        traverseChildren (pre ++ c :: post) = traverseChildren (pre ++ post))
    ∧ (∀ (el : DomNode) (t n : SnapNode), traverse el = some t →
        SnapOccurs n t →
        SnapNode.tagName n ∉ excludedTags
        ∧ (SnapNode.styles n).display ≠ "none")
    ∧ (tagName ∉ excludedTags → style.display ≠ "none" → style.opacity = "0" →
        (traverse (DomNode.element tagName elemId className attributes style
          childNodes)).isSome = true) := by
  refine ⟨?_, traverseChildren_drop_pruned, ?_, ?_⟩
  · rintro (htag | hdisp)
    · simp [traverse, htag]
    · simp [traverse, hdisp]
  · intro el t n htr hocc
    exact traverse_occurs_filtered hocc el htr
  · intro htag hdisp _
    simp [traverse, htag, hdisp]

/-- C5 witness: a `SCRIPT` with a child prunes to nothing; dropping it from
a child list leaves the serialization unchanged; the `DIV` node occurring
in its own serialized tree is neither excluded nor hidden; a transparent
but displayed paragraph is present. -/
theorem C5_prune_invariants_witness :
    traverse scriptW = none
    ∧ traverseChildren ([] ++ scriptW :: [divW]) = traverseChildren ([] ++ [divW])
    ∧ (SnapNode.tagName tDivW ∉ excludedTags
        ∧ (SnapNode.styles tDivW).display ≠ "none")
    ∧ (traverse (DomNode.element "P" "" "" [] styleOp0 [])).isSome = true := by
  refine ⟨?_, ?_, ?_, ?_⟩
  · exact (C5_prune_invariants "SCRIPT" "" "" [] styleW [divW]).1
      (Or.inl (by decide))
  · exact (C5_prune_invariants "X" "" "" [] styleW []).2.1 [] scriptW [divW] rfl
  · exact (C5_prune_invariants "X" "" "" [] styleW []).2.2.1 divW tDivW tDivW rfl
      (SnapOccurs.refl tDivW)
  · exact (C5_prune_invariants "P" "" "" [] styleOp0 []).2.2.2 (by decide)
      (by decide) rfl

/-- C2: the snapshot change gate.  With a present body that traverses to a
tree and no write failure: when the serialized tree's hash equals the
stored `lastHash`, the cycle is a no-op (nothing forwarded, nothing
written, hash kept); when it differs, exactly one snapshot is forwarded,
exactly one file is written, and `lastHash` becomes the new hash. -/
theorem C2_change_gate (md5shex : String → String) (t : SamplerTick)
    (s : SnapSession) (b : DomNode) (tree : SnapNode) (hb : t.body = some b)
    (htr : traverse b = some tree) (hio : t.ioFails = false) :
    (jsIntToString (simpleHash (stringifySnap tree)) = s.lastHash →
      samplerCycle md5shex t s = s)
    ∧ (jsIntToString (simpleHash (stringifySnap tree)) ≠ s.lastHash →
      samplerCycle md5shex t s
        = { lastHash := jsIntToString (simpleHash (stringifySnap tree)),
            snapFiles := (snapshotPath md5shex t.now (stringifySnap tree),
              stringifySnap tree) :: s.snapFiles,
            forwarded := stringifySnap tree :: s.forwarded,
            consoleLines := ("Saved Snapshot: "
              ++ snapshotFilename md5shex t.now (stringifySnap tree))
              :: s.consoleLines }) := by
  constructor
  · intro hc
    simp [samplerCycle, hb, htr, hc]
  · intro hc
    simp [samplerCycle, hb, htr, hc, saveSnapshot, hio, snapshotPath]

/-- C2 witness: from the initial state the first cycle writes and forwards
the serialized body; a second cycle over an unchanged body is a no-op. -/
theorem C2_change_gate_witness :
    samplerCycle md5s tickSameW (samplerCycle md5s tickW initialSnapSession)
      = samplerCycle md5s tickW initialSnapSession
    ∧ (samplerCycle md5s tickW initialSnapSession).forwarded
        = [stringifySnap treeW]
    ∧ (samplerCycle md5s tickW initialSnapSession).snapFiles
        = [(snapshotPath md5s 1000 (stringifySnap treeW), stringifySnap treeW)] := by
  have hfirst := (C2_change_gate md5s tickW initialSnapSession bodyW treeW rfl
    rfl rfl).2 (jsIntToString_ne_empty (simpleHash (stringifySnap treeW)))
  refine ⟨?_, ?_, ?_⟩
  · exact (C2_change_gate md5s tickSameW
      (samplerCycle md5s tickW initialSnapSession) bodyW treeW rfl rfl rfl).1
      (by rw [hfirst])
  · rw [hfirst]
    rfl
  · rw [hfirst]
    rfl

/-- C10: the stored hash starts as the empty string while the printed hash
of any serialized tree is a non-empty decimal string, so the first
successfully produced snapshot of a session is always forwarded; a cycle
without a body, or whose body prunes away entirely, forwards nothing and
leaves the gate state unchanged. -/
theorem C10_first_snapshot_gate (md5shex : String → String) (t : SamplerTick)
    (s : SnapSession) :
    (∀ str : String, jsIntToString (simpleHash str) ≠ "")
    ∧ (t.body = none → samplerCycle md5shex t s = s)
    ∧ (∀ b, t.body = some b → traverse b = none → samplerCycle md5shex t s = s)
    ∧ (∀ b tree, s.lastHash = "" → t.body = some b → traverse b = some tree →
        (samplerCycle md5shex t s).forwarded
          = stringifySnap tree :: s.forwarded
        ∧ (samplerCycle md5shex t s).lastHash
          = jsIntToString (simpleHash (stringifySnap tree))) := by
  refine ⟨fun str => jsIntToString_ne_empty (simpleHash str), ?_, ?_, ?_⟩
  · intro hb
    simp [samplerCycle, hb]
  · intro b hb htr
    simp [samplerCycle, hb, htr]
  · intro b tree hlast hb htr
    have hne : jsIntToString (simpleHash (stringifySnap tree)) ≠ s.lastHash := by
      rw [hlast]
      exact jsIntToString_ne_empty _
    cases hio : t.ioFails with
    | true => constructor <;> simp [samplerCycle, hb, htr, hne, saveSnapshot, hio]
    | false => constructor <;> simp [samplerCycle, hb, htr, hne, saveSnapshot, hio]

/-- C10 witness: a body-less tick and a tick whose body is a pruned
`SCRIPT` are no-ops from the initial state; the first real snapshot is
forwarded and the stored hash becomes the printed tree hash. -/
theorem C10_first_snapshot_gate_witness :
    samplerCycle md5s tickNoneW initialSnapSession = initialSnapSession
    ∧ samplerCycle md5s tickPrunedW initialSnapSession = initialSnapSession
    ∧ (samplerCycle md5s tickW initialSnapSession).forwarded
        = [stringifySnap treeW] := by
  refine ⟨?_, ?_, ?_⟩
  · exact (C10_first_snapshot_gate md5s tickNoneW initialSnapSession).2.1 rfl
  · exact (C10_first_snapshot_gate md5s tickPrunedW initialSnapSession).2.2.1
      scriptW rfl rfl
  · exact ((C10_first_snapshot_gate md5s tickW initialSnapSession).2.2.2 bodyW
      treeW rfl rfl rfl).1

/-! ### Claims C7, C8, C9 -/

/-- C7: event logging completeness and order.  Every observed HTTP request
and response appends exactly one record to the HTTP stream and every
WebSocket frame exactly one record to the WebSocket stream, in arrival
order with no deduplication or filtering (the streams are exactly the
per-event records); and when the handlers run at non-decreasing instants,
the HTTP records' timestamps are non-decreasing in stream order. -/
theorem C7_event_logging (md5hex : List Nat → String) (evs : List BrowserEvent)
    (s : CaptureState) :
    (processEvents md5hex evs s).httpLog
        = s.httpLog ++ evs.filterMap httpRecordOf
    ∧ (processEvents md5hex evs s).wsLog = s.wsLog ++ evs.filterMap wsRecordOf
    ∧ (List.Pairwise (fun a b => a ≤ b) (evs.map eventTime) →
        List.Pairwise (fun a b => a ≤ b)
          ((evs.filterMap httpRecordOf).map LogRecord.timestamp)) :=
  ⟨processEvents_httpLog md5hex evs s, processEvents_wsLog md5hex evs s,
   fun h => List.Pairwise.sublist (httpRecord_timestamps_sublist evs) h⟩

/-- C7 witness: a request, a response and one frame in each direction
produce exactly the four records, with ordered HTTP timestamps. -/
theorem C7_event_logging_witness :
    (processEvents md5c
        [BrowserEvent.httpRequest 1 reqW, BrowserEvent.httpResponse 2 respA,
         BrowserEvent.wsFrameSent 3 "wss://game.example/ws" "ping",
         BrowserEvent.wsFrameReceived 4 "wss://game.example/ws" "pong"]
        initialCaptureState).httpLog
      = [requestLogEntry 1 reqW, responseLogEntry 2 respA]
    ∧ (processEvents md5c
        [BrowserEvent.httpRequest 1 reqW, BrowserEvent.httpResponse 2 respA,
         BrowserEvent.wsFrameSent 3 "wss://game.example/ws" "ping",
         BrowserEvent.wsFrameReceived 4 "wss://game.example/ws" "pong"]
        initialCaptureState).wsLog
      = [wsFrameEntry 3 "WS_SENT" "wss://game.example/ws" "ping",
         wsFrameEntry 4 "WS_RECEIVED" "wss://game.example/ws" "pong"]
    ∧ List.Pairwise (fun a b => a ≤ b)
        (([BrowserEvent.httpRequest 1 reqW, BrowserEvent.httpResponse 2 respA,
           BrowserEvent.wsFrameSent 3 "wss://game.example/ws" "ping",
           BrowserEvent.wsFrameReceived 4 "wss://game.example/ws"
             "pong"].filterMap httpRecordOf).map LogRecord.timestamp) := by
  refine ⟨?_, ?_, ?_⟩
  · exact ((C7_event_logging md5c _ initialCaptureState).1).trans (by rfl)
  · exact ((C7_event_logging md5c _ initialCaptureState).2.1).trans (by rfl)
  · exact (C7_event_logging md5c _ initialCaptureState).2.2 (by decide)

/-- Helper for C8: a failing host write leaves the snapshot directory
unchanged, whatever else the cycle does. -/
theorem samplerCycle_ioFails_files (md5shex : String → String)
    (t : SamplerTick) (s : SnapSession) (hio : t.ioFails = true) :
    (samplerCycle md5shex t s).snapFiles = s.snapFiles := by
  cases hb : t.body with
  | none => simp [samplerCycle, hb]
  | some b =>
      cases htr : traverse b with
      | none => simp [samplerCycle, hb, htr]
      | some tree =>
          by_cases hc : jsIntToString (simpleHash (stringifySnap tree))
            = s.lastHash
          · simp [samplerCycle, hb, htr, hc]
          · simp [samplerCycle, hb, htr, hc, saveSnapshot, hio]

/-- C8: error containment.  A failed body read inside `saveFile` leaves the
filesystem and asset map untouched and only logs the error; a failed
snapshot write inside `saveSnapshot` leaves the snapshot directory
untouched; processing always continues with the next event (each event is
consumed exactly once by the fold, so nothing is retried); and a response
whose body read fails has no effect at all on the files and asset map the
rest of the session produces. -/
theorem C8_error_containment (md5hex : List Nat → String)
    (md5shex : String → String) (response : JsResponse) (type dir : String)
    (s : CaptureState) (t : SamplerTick) (ss : SnapSession) (e : BrowserEvent)
    (rest : List BrowserEvent) :
    (response.body? = none →
      (saveFile md5hex response type dir s).files = s.files
      ∧ (saveFile md5hex response type dir s).assetMap = s.assetMap
      ∧ (saveFile md5hex response type dir s).consoleLines
          = ("Failed to save " ++ type ++ " from " ++ response.url)
              :: s.consoleLines)
    ∧ (t.ioFails = true → (samplerCycle md5shex t ss).snapFiles = ss.snapFiles)
    ∧ processEvents md5hex (e :: rest) s
        = processEvents md5hex rest (onEvent md5hex s e)
    ∧ (∀ now r, e = BrowserEvent.httpResponse now r → r.body? = none →
        (processEvents md5hex (e :: rest) s).files
          = (processEvents md5hex rest s).files
        ∧ (processEvents md5hex (e :: rest) s).assetMap
          = (processEvents md5hex rest s).assetMap) := by
  refine ⟨?_, samplerCycle_ioFails_files md5shex t ss, rfl, ?_⟩
  · intro hb
    unfold saveFile
    rw [hb]
    exact ⟨rfl, rfl, rfl⟩
  · intro now r he hb
    subst he
    rw [processEvents_cons]
    have hf : (onEvent md5hex s (BrowserEvent.httpResponse now r)).files
        = s.files := by
      show (onResponse md5hex now r s).files = s.files
      rw [onResponse_files]
      unfold filesAfterSave
      rw [hb]
      simp
    have hm : (onEvent md5hex s (BrowserEvent.httpResponse now r)).assetMap
        = s.assetMap := by
      show (onResponse md5hex now r s).assetMap = s.assetMap
      rw [onResponse_assetMap]
      unfold assetMapAfterSave
      rw [hb]
      simp
    exact processEvents_files_assetMap_congr md5hex rest _ s hf hm

/-- C8 witness: a tracked, successful response whose body read fails is
logged, writes nothing, and leaves the rest of the session's files exactly
as if it had not happened; a failing snapshot write leaves the snapshot
directory empty. -/
theorem C8_error_containment_witness :
    (saveFile md5c
        { url := "https://game.example/broken", pathname := "/broken",
          headers := [("content-type", "image/png")], ok := true, status := 200,
          method := "GET", resourceType := "image", body? := none }
        "image" TEXTURES_DIR initialCaptureState).files = []
    ∧ (samplerCycle md5s
        { now := 9000, body := some bodyW, ioFails := true }
        initialSnapSession).snapFiles = []
    ∧ (processEvents md5c
        [BrowserEvent.httpResponse 1
          { url := "https://game.example/broken", pathname := "/broken",
            headers := [("content-type", "image/png")], ok := true,
            status := 200, method := "GET", resourceType := "image",
            body? := none },
         BrowserEvent.httpResponse 2 respA] initialCaptureState).files
      = (processEvents md5c [BrowserEvent.httpResponse 2 respA]
          initialCaptureState).files := by
  refine ⟨?_, ?_, ?_⟩
  · exact ((C8_error_containment md5c md5s _ "image" TEXTURES_DIR
      initialCaptureState tickW initialSnapSession
      (BrowserEvent.httpRequest 0 reqW) []).1 rfl).1
  · exact (C8_error_containment md5c md5s respA "image" TEXTURES_DIR
      initialCaptureState { now := 9000, body := some bodyW, ioFails := true }
      initialSnapSession (BrowserEvent.httpRequest 0 reqW) []).2.1 rfl
  · exact ((C8_error_containment md5c md5s respA "image" TEXTURES_DIR
      initialCaptureState tickW initialSnapSession
      (BrowserEvent.httpResponse 1
        { url := "https://game.example/broken", pathname := "/broken",
          headers := [("content-type", "image/png")], ok := true, status := 200,
          method := "GET", resourceType := "image", body? := none })
      [BrowserEvent.httpResponse 2 respA]).2.2.2 1 _ rfl rfl).1

/-- C9: snapshot filename uniqueness.  When the write-time instants of the
cycles are pairwise distinct (the spec's premise: the 2-second cadence is
far coarser than the millisecond clock) and the digest strings have the
full 32 hex characters (as md5 hex digests do), all snapshot file paths
persisted during a session are pairwise distinct: the filename embeds the
timestamp, the surrounding pieces have fixed lengths, and decimal printing
is injective. -/
theorem C9_snapshot_filename_uniqueness (md5shex : String → String)
    (ticks : List SamplerTick) (h8 : ∀ s, 8 ≤ (md5shex s).length)
    (htimes : List.Pairwise (fun a b => a ≠ b) (ticks.map SamplerTick.now)) :
    List.Pairwise (fun a b => a ≠ b)
      ((runSampler md5shex ticks initialSnapSession).snapFiles.map Prod.fst) := by
  obtain ⟨ws, h1, h2⟩ := runSampler_files_spec md5shex ticks initialSnapSession
  rw [h1]
  have hinit : initialSnapSession.snapFiles = [] := rfl
  rw [hinit, List.append_nil, List.map_map]
  have hrev : List.Pairwise (fun a b => a ≠ b)
      ((ticks.map SamplerTick.now).reverse) := by
    rw [List.pairwise_reverse]
    exact htimes.imp (fun h => Ne.symm h)
  have hws : List.Pairwise (fun a b => a ≠ b) (ws.map Prod.fst) :=
    List.Pairwise.sublist h2 hrev
  rw [List.pairwise_map] at hws ⊢
  exact hws.imp (fun hab => snapshotPath_time_inj md5shex h8 hab)

/-- C9 witness: two cycles at distinct instants over different bodies leave
pairwise-distinct snapshot paths. -/
theorem C9_snapshot_filename_uniqueness_witness :
    List.Pairwise (fun a b => a ≠ b)
      ((runSampler md5s [tickW, tick2W] initialSnapSession).snapFiles.map
        Prod.fst) :=
  C9_snapshot_filename_uniqueness md5s [tickW, tick2W]
    (fun _ => by simp only [md5s]; decide) (by decide)

end Monolit
